import Mathlib

/-!
Verification of the TradingView-to-Binance-futures webhook bot
(src/app.py) against its natural-language specification.

The handler is shallowly embedded: the exchange client (ccxt) is an
oracle giving the result of each capability call, where an exception
raised by a call is modelled as an Except.error carrying the exception
message.  Python floats are idealised as rationals.  The handler returns
the HTTP response together with the ordered log of exchange-client calls
it made, so that properties about which calls happen (and which orders
are submitted) can be stated.
-/

namespace BinanceBot

/-- A position record as returned by the exchange (one element of the
fetch_positions result).  The field symbol models p.get("symbol")
(absent key = none); entryPrice and contracts model
float(p.get("entryPrice", 0)) and float(p.get("contracts", 0)): numeric
values, with an absent key reading as 0. -/
structure Position where
  symbol : Option String
  entryPrice : ℚ
  contracts : ℚ
deriving Repr, DecidableEq

/-- Direction of a market order. -/
inductive Side where
  | buy
  | sell
deriving Repr, DecidableEq

/-- The data of one market-order submission attempt:
create_market_buy_order(symbol, amount) is ⟨symbol, buy, amount, false⟩
and create_market_sell_order(symbol, qty, reduceOnly true) is
⟨symbol, sell, qty, true⟩. -/
structure OrderIntent where
  symbol : String
  side : Side
  amount : ℚ
  reduceOnly : Bool
deriving Repr, DecidableEq

/-- One call made to the exchange client.  fetchPositions none models a
call fetch_positions() with no symbol filter (full account snapshot);
fetchPositions (some l) models fetch_positions(l) with the filter list
l. -/
inductive ClientCall where
  | fetchBalance
  | fetchTicker (symbol : String)
  | fetchPositions (filter : Option (List String))
  | createOrder (intent : OrderIntent)
deriving Repr, DecidableEq

/-- The exchange client, modelled as an oracle giving the result of each
call the handler can make.  An Except.error m result models the call
raising an exception whose message is m.
balanceResult is the value of fetch_balance()["free"].get("USDT", 0);
tickerLast s is fetch_ticker(s)["last"], where the exchange may return a
null last price (Option); positionsResult f is fetch_positions with
filter f; orderResult i is the confirmation record (as a string) from
submitting the order i. -/
structure Exchange where
  balanceResult : Except String ℚ
  tickerLast : String → Except String (Option ℚ)
  positionsResult : Option (List String) → Except String (List Position)
  orderResult : OrderIntent → Except String String

/-- The parsed webhook JSON body.  Absent fields are none.  qty_pct
holds the value of float(data.get("qty_pct", 0)) after the except
fallback in lines 69-72 of src/app.py: an absent or unparseable value
reads as 0. -/
structure Payload where
  secret : Option String
  symbol : Option String
  side : Option String
  action : Option String
  qty_pct : ℚ
deriving Repr, DecidableEq

/-- An HTTP response: status code plus the JSON body fields produced by
jsonify (the body field "status", and the optional "message" and
"order" fields). -/
structure HttpResponse where
  code : ℕ
  status : String
  message : Option String
  order : Option String
deriving Repr, DecidableEq

/-- The predicate of the position scan in line 116 of src/app.py:
p.get("symbol") == symbol and float(p.get("entryPrice", 0)) > 0. -/
def posMatches (symbol : String) (p : Position) : Bool :=
  decide (p.symbol = some symbol) && decide ((0 : ℚ) < p.entryPrice)

/-- The outcome of an order-submission attempt (lines 103-105 and
123-126 of src/app.py): on success HTTP 200 with the confirmation in
the body, on failure the submission exception propagating out of the
attempt. -/
def submitResult (r : Except String String) : Except String HttpResponse :=
  match r with
  | .error m => .error m
  | .ok order => .ok ⟨200, "success", none, some order⟩

/-- The BUY (entry) branch of the handler, lines 80-105 of src/app.py.
Returns the result of the try-block body (an error is an uncaught
exception inside the block) together with the exchange calls made.
A null last price makes the division amount_in_usdt / last_price raise
a TypeError, and a zero last price makes it raise a ZeroDivisionError;
both are modelled as Except.error with the exception message. -/
def buyFlow (ex : Exchange) (symbol : String) (qty_pct : ℚ) :
    Except String HttpResponse × List ClientCall :=
  match ex.balanceResult with
  | .error m => (.error m, [.fetchBalance])
  | .ok available_balance =>
    if available_balance ≤ 1 then
      (.ok ⟨400, "error",
        some ("Insufficient balance. Only " ++ toString available_balance
          ++ " USDT available."), none⟩, [.fetchBalance])
    else
      match ex.tickerLast symbol with
      | .error m => (.error m, [.fetchBalance, .fetchTicker symbol])
      | .ok none =>
        (.error "TypeError: unsupported operand types for /: float and NoneType",
         [.fetchBalance, .fetchTicker symbol])
      | .ok (some last_price) =>
        if last_price = 0 then
          (.error "ZeroDivisionError: float division by zero",
           [.fetchBalance, .fetchTicker symbol])
        else
          let amount := available_balance * (qty_pct / 100) / last_price
          let intent : OrderIntent := ⟨symbol, .buy, amount, false⟩
          (submitResult (ex.orderResult intent),
           [.fetchBalance, .fetchTicker symbol, .createOrder intent])

/-- The CLOSE branch of the handler, lines 108-129 of src/app.py.  The
positions fetch is exchange.fetch_positions([symbol]), i.e. filtered by
the payload symbol.  The first position whose symbol matches and whose
entryPrice is positive is selected; an order (market sell, reduceOnly)
is submitted only when its contracts value is positive. -/
def closeFlow (ex : Exchange) (symbol : String) :
    Except String HttpResponse × List ClientCall :=
  match ex.positionsResult (some [symbol]) with
  | .error m => (.error m, [.fetchPositions (some [symbol])])
  | .ok positions =>
    match positions.find? (posMatches symbol) with
    | some pos =>
      if 0 < pos.contracts then
        let intent : OrderIntent := ⟨symbol, .sell, pos.contracts, true⟩
        (submitResult (ex.orderResult intent),
         [.fetchPositions (some [symbol]), .createOrder intent])
      else
        (.ok ⟨200, "info", some "No open position to close", none⟩,
         [.fetchPositions (some [symbol])])
    | none =>
      (.ok ⟨200, "info", some "No open position to close", none⟩,
       [.fetchPositions (some [symbol])])

/-- The body of the try-block of lines 78-132 of src/app.py: dispatch on
side and action.  The buy branch is tested first; the close branch only
runs when side is not "buy". -/
def tradingLogic (ex : Exchange) (symbol : String) (side action : Option String)
    (qty_pct : ℚ) : Except String HttpResponse × List ClientCall :=
  if side = some "buy" then
    buyFlow ex symbol qty_pct
  else if action = some "close" then
    closeFlow ex symbol
  else
    (.ok ⟨400, "error", some "Webhook received with invalid side or action", none⟩, [])

/-- The POST /webhook handler, lines 49-141 of src/app.py, for an
already-parsed JSON body: secret check (403), symbol presence check
(400, where an empty string is falsy like an absent field), then the
trading logic, whose exceptions are caught and converted to an HTTP 500
response carrying the exception message.  Returns the HTTP response
together with the ordered log of exchange-client calls made. -/
def webhook (ex : Exchange) (secretKey : String) (data : Payload) :
    HttpResponse × List ClientCall :=
  if data.secret ≠ some secretKey then
    (⟨403, "error", some "Invalid secret key", none⟩, [])
  else
    match data.symbol with
    | none => (⟨400, "error", some "Missing symbol in webhook data", none⟩, [])
    | some symbol =>
      if symbol = "" then
        (⟨400, "error", some "Missing symbol in webhook data", none⟩, [])
      else
        match tradingLogic ex symbol data.side data.action data.qty_pct with
        | (.ok resp, log) => (resp, log)
        | (.error m, log) => (⟨500, "error", some m, none⟩, log)

/-- The market-order submission attempts recorded in a call log (in
order). -/
def ordersOf (log : List ClientCall) : List OrderIntent :=
  log.filterMap fun c =>
    match c with
    | .createOrder i => some i
    | _ => none

/-- The position-fetch calls recorded in a call log, each with its
filter argument (none = unfiltered full snapshot). -/
def positionFetchesOf (log : List ClientCall) : List (Option (List String)) :=
  log.filterMap fun c =>
    match c with
    | .fetchPositions f => some f
    | _ => none


/-!  Concrete fixtures used by counterexamples and witnesses. -/

/-- A short position (signed quantity -5) in ETHUSDT, at entry price 100. -/
def shortPos : Position := ⟨some "ETHUSDT", 100, -5⟩

/-- A long position (signed quantity 3) in ETHUSDT, at entry price 100. -/
def longPos : Position := ⟨some "ETHUSDT", 100, 3⟩

/-- An exchange with 1000 USDT free, last price 100, and only the short
position open. -/
def exShort : Exchange :=
  ⟨.ok 1000, fun _ => .ok (some 100), fun _ => .ok [shortPos], fun _ => .ok "filled"⟩

/-- An exchange with 1000 USDT free, last price 100, and only the long
position open. -/
def exLong : Exchange :=
  ⟨.ok 1000, fun _ => .ok (some 100), fun _ => .ok [longPos], fun _ => .ok "filled"⟩

/-- An exchange with 1000 USDT free whose ticker carries a null last
price and whose position snapshot is empty. -/
def exNoPrice : Exchange :=
  ⟨.ok 1000, fun _ => .ok none, fun _ => .ok [], fun _ => .ok "filled"⟩

/-- An exchange whose balance fetch raises an exception. -/
def exDown : Exchange :=
  ⟨.error "binance is down", fun _ => .ok (some 100), fun _ => .ok [], fun _ => .ok "filled"⟩

/-- A close alert for ETHUSDT carrying the default shared secret. -/
def closePayload : Payload := ⟨some "test1234", some "ETHUSDT", none, some "close", 0⟩

/-- A buy alert for ETHUSDT committing 10 percent of the balance. -/
def buyPayload : Payload := ⟨some "test1234", some "ETHUSDT", some "buy", none, 10⟩


/-!  Helper lemmas shared by the claim theorems. -/

/-- Helper: the buy flow never makes a positions-fetch call. -/
theorem buyFlow_no_positions_fetch (ex : Exchange) (s : String) (q : ℚ) :
    ∀ f, ClientCall.fetchPositions f ∉ (buyFlow ex s q).2 := by
  intro f
  unfold buyFlow
  repeat' split
  all_goals simp

/-- Helper: the buy flow makes at most one order-submission attempt. -/
theorem buyFlow_orders_len (ex : Exchange) (s : String) (q : ℚ) :
    (ordersOf (buyFlow ex s q).2).length ≤ 1 := by
  unfold buyFlow
  repeat' split
  all_goals simp [ordersOf]

/-- Helper: the close flow makes at most one order-submission attempt. -/
theorem closeFlow_orders_len (ex : Exchange) (s : String) :
    (ordersOf (closeFlow ex s).2).length ≤ 1 := by
  unfold closeFlow
  repeat' split
  all_goals simp [ordersOf]

/-- Helper: the trading logic makes at most one order-submission
attempt. -/
theorem tradingLogic_orders_len (ex : Exchange) (s : String)
    (side action : Option String) (q : ℚ) :
    (ordersOf (tradingLogic ex s side action q).2).length ≤ 1 := by
  unfold tradingLogic
  split
  · exact buyFlow_orders_len ex s q
  · split
    · exact closeFlow_orders_len ex s
    · simp [ordersOf]

/-- Helper: once the secret and symbol checks pass, the call log of the
whole handler is the call log of the trading logic (the 500-conversion
of an exception does not change which exchange calls were made). -/
theorem webhook_log_eq_tradingLogic (ex : Exchange) (secretKey : String)
    (data : Payload) (s : String) (hsec : data.secret = some secretKey)
    (hsym : data.symbol = some s) (hne : s ≠ "") :
    (webhook ex secretKey data).2 =
      (tradingLogic ex s data.side data.action data.qty_pct).2 := by
  rcases h : tradingLogic ex s data.side data.action data.qty_pct with ⟨r, log⟩
  cases r <;> simp [webhook, hsec, hsym, hne, h]

/-- Helper: the close flow makes exactly one positions-fetch call, and
it carries the one-element filter list holding the payload symbol. -/
theorem closeFlow_positionFetches (ex : Exchange) (s : String) :
    positionFetchesOf (closeFlow ex s).2 = [some [s]] := by
  unfold closeFlow
  repeat' split
  all_goals simp [positionFetchesOf]

/-!  Claim theorems. -/

/-- C1 (counterexample): the fetched positions hold an entry for
ETHUSDT with nonzero signed quantity (contracts = -5, a short), yet the
handler submits no order at all (instead of the claimed reduce-only buy
of quantity 5) and answers with the no-open-position info response. -/
theorem close_short_counterexample :
    exShort.positionsResult (some ["ETHUSDT"]) = .ok [shortPos] ∧
    shortPos.symbol = some "ETHUSDT" ∧ shortPos.contracts = -5 ∧
    ordersOf (webhook exShort "test1234" closePayload).2 = [] ∧
    (webhook exShort "test1234" closePayload).1 =
      ⟨200, "info", some "No open position to close", none⟩ :=
  ⟨rfl, rfl, rfl, by decide, by decide⟩

/-- C1 (amended): for every close request (valid secret, non-empty
symbol, side not "buy", action "close"), the handler selects the first
fetched entry whose symbol matches and whose entryPrice is positive;
when that entry has positive contracts quantity q it submits exactly
one market sell order with reduce-only set and quantity q, and when
q ≤ 0 (in particular for a short position) it submits no order. -/
theorem close_order_as_coded (ex : Exchange) (secretKey : String) (data : Payload)
    (s : String) (ps : List Position) (p : Position)
    (hsec : data.secret = some secretKey) (hsym : data.symbol = some s) (hne : s ≠ "")
    (hside : data.side ≠ some "buy") (hact : data.action = some "close")
    (hpos : ex.positionsResult (some [s]) = .ok ps)
    (hfind : ps.find? (posMatches s) = some p) :
    (0 < p.contracts →
      ordersOf (webhook ex secretKey data).2 = [⟨s, Side.sell, p.contracts, true⟩]) ∧
    (p.contracts ≤ 0 → ordersOf (webhook ex secretKey data).2 = []) := by
  rw [webhook_log_eq_tradingLogic ex secretKey data s hsec hsym hne]
  constructor
  · intro h
    simp [tradingLogic, closeFlow, hside, hact, hpos, hfind, h, ordersOf]
  · intro h
    have h2 : ¬ 0 < p.contracts := not_lt.mpr h
    simp [tradingLogic, closeFlow, hside, hact, hpos, hfind, h2, ordersOf]

/-- Witness for close_order_as_coded: closing a long position of 3
contracts submits the single reduce-only market sell of quantity 3. -/
theorem close_order_as_coded_witness :
    ordersOf (webhook exLong "test1234" closePayload).2 =
      [⟨"ETHUSDT", Side.sell, 3, true⟩] :=
  (close_order_as_coded exLong "test1234" closePayload "ETHUSDT" [longPos] longPos
    rfl rfl (by decide) (by decide) rfl rfl rfl).1 (by norm_num [longPos])

/-- C2 (counterexample): on a concrete close request the single
positions-fetch call carries the filter some ["ETHUSDT"], which is not
the unfiltered full-snapshot call, and no unfiltered call occurs. -/
theorem close_positions_fetch_filtered_counterexample :
    positionFetchesOf (webhook exShort "test1234" closePayload).2 = [some ["ETHUSDT"]] ∧
    (some ["ETHUSDT"] : Option (List String)) ≠ none ∧
    ClientCall.fetchPositions none ∉ (webhook exShort "test1234" closePayload).2 := by
  decide

/-- C2 (amended): for every close request, the handler queries open
positions exactly once, with the one-element filter list holding the
payload symbol, rather than requesting the full account snapshot. -/
theorem close_fetch_uses_symbol_filter (ex : Exchange) (secretKey : String)
    (data : Payload) (s : String)
    (hsec : data.secret = some secretKey) (hsym : data.symbol = some s) (hne : s ≠ "")
    (hside : data.side ≠ some "buy") (hact : data.action = some "close") :
    positionFetchesOf (webhook ex secretKey data).2 = [some [s]] := by
  rw [webhook_log_eq_tradingLogic ex secretKey data s hsec hsym hne]
  simp [tradingLogic, hside, hact, closeFlow_positionFetches]

/-- Witness for close_fetch_uses_symbol_filter at a concrete close
request. -/
theorem close_fetch_uses_symbol_filter_witness :
    positionFetchesOf (webhook exShort "test1234" closePayload).2 = [some ["ETHUSDT"]] :=
  close_fetch_uses_symbol_filter exShort "test1234" closePayload "ETHUSDT" rfl rfl
    (by decide) (by decide) rfl

/-- C3 (counterexample): on a buy request with ample balance and a null
last price the handler answers 500, not the claimed 400, and submits no
order. -/
theorem no_last_price_counterexample :
    (webhook exNoPrice "test1234" buyPayload).1.code = 500 ∧
    (webhook exNoPrice "test1234" buyPayload).1.code ≠ 400 ∧
    ordersOf (webhook exNoPrice "test1234" buyPayload).2 = [] := by
  decide

/-- C3 (amended): for every buy request (valid secret, non-empty
symbol, balance above 1) where the ticker query returns no last price,
the handler responds with HTTP 500 (the null price makes the quantity
computation raise, and the generic handler converts the exception) and
submits no order. -/
theorem buy_missing_price_gives_500 (ex : Exchange) (secretKey : String)
    (data : Payload) (s : String) (B : ℚ)
    (hsec : data.secret = some secretKey) (hsym : data.symbol = some s)
    (hne : s ≠ "") (hside : data.side = some "buy")
    (hbal : ex.balanceResult = .ok B) (hB : 1 < B)
    (htick : ex.tickerLast s = .ok none) :
    (webhook ex secretKey data).1.code = 500 ∧
    ordersOf (webhook ex secretKey data).2 = [] := by
  have hB2 : ¬ B ≤ 1 := not_le.mpr hB
  have h : tradingLogic ex s data.side data.action data.qty_pct =
      (.error "TypeError: unsupported operand types for /: float and NoneType",
       [.fetchBalance, .fetchTicker s]) := by
    simp [tradingLogic, buyFlow, hside, hbal, hB2, htick]
  simp [webhook, hsec, hsym, hne, h, ordersOf]

/-- Witness for buy_missing_price_gives_500 at a concrete buy request
against an exchange with a null last price. -/
theorem buy_missing_price_gives_500_witness :
    (webhook exNoPrice "test1234" buyPayload).1.code = 500 ∧
    ordersOf (webhook exNoPrice "test1234" buyPayload).2 = [] :=
  buy_missing_price_gives_500 exNoPrice "test1234" buyPayload "ETHUSDT" 1000
    rfl rfl (by decide) rfl rfl (by norm_num) rfl

/-- C4: for every buy request with valid secret, non-empty symbol,
available balance B above 1 and last price P (nonzero, as a zero price
would raise instead), the handler attempts exactly one market buy order
of quantity B * (qty_pct / 100) / P with the reduce-only flag not set;
the quantity may be zero (for qty_pct = 0) and is still submitted. -/
theorem buy_submits_computed_quantity (ex : Exchange) (secretKey : String)
    (data : Payload) (s : String) (B P : ℚ)
    (hsec : data.secret = some secretKey) (hsym : data.symbol = some s)
    (hne : s ≠ "") (hside : data.side = some "buy")
    (hbal : ex.balanceResult = .ok B) (hB : 1 < B)
    (htick : ex.tickerLast s = .ok (some P)) (hP : P ≠ 0) :
    ordersOf (webhook ex secretKey data).2 =
      [⟨s, Side.buy, B * (data.qty_pct / 100) / P, false⟩] := by
  rw [webhook_log_eq_tradingLogic ex secretKey data s hsec hsym hne]
  have hB2 : ¬ B ≤ 1 := not_le.mpr hB
  simp [tradingLogic, buyFlow, hside, hbal, hB2, htick, hP, ordersOf]

/-- Witness for buy_submits_computed_quantity with qty_pct = 0: the
zero quantity 1000 * (0 / 100) / 100 is still submitted. -/
theorem buy_submits_computed_quantity_witness :
    ordersOf (webhook exLong "test1234" ⟨some "test1234", some "ETHUSDT", some "buy", none, 0⟩).2 =
      [⟨"ETHUSDT", Side.buy, 1000 * ((0 : ℚ) / 100) / 100, false⟩] :=
  buy_submits_computed_quantity exLong "test1234"
    ⟨some "test1234", some "ETHUSDT", some "buy", none, 0⟩ "ETHUSDT" 1000 100
    rfl rfl (by decide) rfl rfl (by norm_num) rfl (by norm_num)

/-- C5: a payload whose secret differs from the configured shared
secret is answered with HTTP 403 and no exchange call is made at all
(hence no order), regardless of every other field. -/
theorem wrong_secret_rejected (ex : Exchange) (secretKey : String) (data : Payload)
    (h : data.secret ≠ some secretKey) :
    (webhook ex secretKey data).1.code = 403 ∧ (webhook ex secretKey data).2 = [] := by
  simp [webhook, h]

/-- Witness for wrong_secret_rejected at a concrete payload carrying a
wrong secret together with symbol, side, action and qty_pct values. -/
theorem wrong_secret_rejected_witness :
    (some "bad" : Option String) ≠ some "test1234" ∧
    (webhook exLong "test1234" ⟨some "bad", some "ETHUSDT", some "buy", some "close", 50⟩).1.code = 403 ∧
    (webhook exLong "test1234" ⟨some "bad", some "ETHUSDT", some "buy", some "close", 50⟩).2 = [] :=
  ⟨by decide, wrong_secret_rejected exLong "test1234"
    ⟨some "bad", some "ETHUSDT", some "buy", some "close", 50⟩ (by decide)⟩

/-- C6 (counterexample): a payload with absent symbol but wrong secret
is answered 403, not 400, so the missing-symbol rule does not hold for
every payload. -/
theorem missing_symbol_counterexample :
    (⟨some "wrong", none, none, none, 0⟩ : Payload).symbol = none ∧
    (webhook exLong "test1234" ⟨some "wrong", none, none, none, 0⟩).1.code = 403 ∧
    (webhook exLong "test1234" ⟨some "wrong", none, none, none, 0⟩).1.code ≠ 400 := by
  decide

/-- C6 (amended): for every payload with the correct secret whose
symbol is absent or empty, the handler responds with HTTP 400 and makes
no exchange call (hence submits no order). -/
theorem missing_symbol_gives_400 (ex : Exchange) (secretKey : String) (data : Payload)
    (hsec : data.secret = some secretKey)
    (h : data.symbol = none ∨ data.symbol = some "") :
    (webhook ex secretKey data).1.code = 400 ∧ (webhook ex secretKey data).2 = [] := by
  rcases h with h | h <;> simp [webhook, hsec, h]

/-- Witness for missing_symbol_gives_400 at a payload with correct
secret and absent symbol. -/
theorem missing_symbol_gives_400_witness :
    (webhook exLong "test1234" ⟨some "test1234", none, some "buy", none, 5⟩).1.code = 400 ∧
    (webhook exLong "test1234" ⟨some "test1234", none, some "buy", none, 5⟩).2 = [] :=
  missing_symbol_gives_400 exLong "test1234" ⟨some "test1234", none, some "buy", none, 5⟩
    rfl (Or.inl rfl)

/-- C7: for every close request where no fetched entry for the symbol
has nonzero contracts quantity, the handler answers HTTP 200 with
status "info" and message "No open position to close", and submits no
order. -/
theorem close_no_position_is_info (ex : Exchange) (secretKey : String)
    (data : Payload) (s : String) (ps : List Position)
    (hsec : data.secret = some secretKey) (hsym : data.symbol = some s) (hne : s ≠ "")
    (hside : data.side ≠ some "buy") (hact : data.action = some "close")
    (hpos : ex.positionsResult (some [s]) = .ok ps)
    (hflat : ∀ p ∈ ps, p.symbol = some s → p.contracts = 0) :
    (webhook ex secretKey data).1 =
      ⟨200, "info", some "No open position to close", none⟩ ∧
    ordersOf (webhook ex secretKey data).2 = [] := by
  have hres : tradingLogic ex s data.side data.action data.qty_pct =
      (.ok ⟨200, "info", some "No open position to close", none⟩,
       [.fetchPositions (some [s])]) := by
    cases hfind : ps.find? (posMatches s) with
    | none => simp [tradingLogic, closeFlow, hside, hact, hpos, hfind]
    | some p =>
      have hmem := List.mem_of_find?_eq_some hfind
      have hpred := List.find?_some hfind
      have hsymEq : p.symbol = some s := by
        simp [posMatches] at hpred
        exact hpred.1
      have hzero : p.contracts = 0 := hflat p hmem hsymEq
      simp [tradingLogic, closeFlow, hside, hact, hpos, hfind, hzero]
  simp [webhook, hsec, hsym, hne, hres, ordersOf]

/-- Witness for close_no_position_is_info against an exchange whose
position snapshot is empty. -/
theorem close_no_position_is_info_witness :
    (webhook exNoPrice "test1234" closePayload).1 =
      ⟨200, "info", some "No open position to close", none⟩ ∧
    ordersOf (webhook exNoPrice "test1234" closePayload).2 = [] :=
  close_no_position_is_info exNoPrice "test1234" closePayload "ETHUSDT" [] rfl rfl
    (by decide) (by decide) rfl rfl (by simp)

/-- C8: whenever the trading logic raises (every error it can produce
originates in an exchange-client call or in the quantity computation),
the handler catches the exception and answers HTTP 500 with the
exception message in the body; the total function webhook never lets it
propagate. -/
theorem client_exception_gives_500 (ex : Exchange) (secretKey : String)
    (data : Payload) (s : String) (m : String) (log : List ClientCall)
    (hsec : data.secret = some secretKey) (hsym : data.symbol = some s) (hne : s ≠ "")
    (h : tradingLogic ex s data.side data.action data.qty_pct = (.error m, log)) :
    webhook ex secretKey data = (⟨500, "error", some m, none⟩, log) := by
  simp [webhook, hsec, hsym, hne, h]

/-- Witness for client_exception_gives_500: a balance fetch that raises
"binance is down" is converted to a 500 response with that message. -/
theorem client_exception_gives_500_witness :
    webhook exDown "test1234" buyPayload =
      (⟨500, "error", some "binance is down", none⟩, [ClientCall.fetchBalance]) :=
  client_exception_gives_500 exDown "test1234" buyPayload "ETHUSDT" "binance is down"
    [ClientCall.fetchBalance] rfl rfl (by decide) rfl

/-- C9: every request makes at most one order-submission attempt to the
exchange client, over all branches and independently of any failure (a
failed attempt is counted and never retried). -/
theorem at_most_one_order_per_request (ex : Exchange) (secretKey : String)
    (data : Payload) :
    (ordersOf (webhook ex secretKey data).2).length ≤ 1 := by
  by_cases hsec : data.secret = some secretKey
  · cases hsym : data.symbol with
    | none => simp [webhook, hsec, hsym, ordersOf]
    | some s =>
      by_cases hne : s = ""
      · simp [webhook, hsec, hsym, hne, ordersOf]
      · rw [webhook_log_eq_tradingLogic ex secretKey data s hsec hsym hne]
        exact tradingLogic_orders_len ex s data.side data.action data.qty_pct
  · simp [webhook, hsec, ordersOf]

/-- C10: a payload carrying both side "buy" and action "close" (with
valid secret and non-empty symbol) runs only the buy flow: the response
and call log equal those of the same payload with the action removed,
the call log is exactly the buy-flow log, and no positions-fetch call
(the first step of the close flow) ever happens. -/
theorem buy_branch_precedence (ex : Exchange) (secretKey : String) (data : Payload)
    (s : String) (hsec : data.secret = some secretKey) (hsym : data.symbol = some s)
    (hne : s ≠ "") (hside : data.side = some "buy") (_hact : data.action = some "close") :
    webhook ex secretKey data =
      webhook ex secretKey ⟨data.secret, data.symbol, data.side, none, data.qty_pct⟩ ∧
    (webhook ex secretKey data).2 = (buyFlow ex s data.qty_pct).2 ∧
    ∀ f, ClientCall.fetchPositions f ∉ (webhook ex secretKey data).2 := by
  have hlog : (webhook ex secretKey data).2 = (buyFlow ex s data.qty_pct).2 := by
    rw [webhook_log_eq_tradingLogic ex secretKey data s hsec hsym hne]
    simp [tradingLogic, hside]
  refine ⟨by simp [webhook, tradingLogic, hsec, hsym, hne, hside], hlog, ?_⟩
  rw [hlog]
  exact buyFlow_no_positions_fetch ex s data.qty_pct

/-- Witness for buy_branch_precedence at a payload carrying both side
"buy" and action "close". -/
theorem buy_branch_precedence_witness :
    webhook exLong "test1234" ⟨some "test1234", some "ETHUSDT", some "buy", some "close", 10⟩ =
      webhook exLong "test1234" ⟨some "test1234", some "ETHUSDT", some "buy", none, 10⟩ ∧
    (webhook exLong "test1234" ⟨some "test1234", some "ETHUSDT", some "buy", some "close", 10⟩).2 =
      (buyFlow exLong "ETHUSDT" 10).2 ∧
    ∀ f, ClientCall.fetchPositions f ∉
      (webhook exLong "test1234" ⟨some "test1234", some "ETHUSDT", some "buy", some "close", 10⟩).2 :=
  buy_branch_precedence exLong "test1234"
    ⟨some "test1234", some "ETHUSDT", some "buy", some "close", 10⟩ "ETHUSDT"
    rfl rfl (by decide) rfl rfl

end BinanceBot
